import Mathlib

/-!
# HTTP handler registration of cAdvisor (`http/handlers.go`)

A shallow embedding of `RegisterHandlers`, `staticHandlerNoAuth` and
`staticHandler`.

The Go function mutates routers and process-wide registries and calls into
collaborator packages.  The embedding makes this explicit: the world is the
chronological list of effects performed so far (`Trace`), every statement of
the Go body appends the effect it performs, and the collaborator packages
(`healthz`, `api`, `pages`, `validate`, `static`) together with the page
constants they export are fields of an environment `Env`.

Library calls on routers and registries (`Handle`, `HandleFunc`,
`MustRegister`) are recorded as effects; what a router answers for a path is
read off the recorded registrations (`routes`, `handlerAt`).  The router
behind the `mux` argument is the one of the specification, for which a later
registration of a pattern replaces the earlier one.  The two package-level
calls of lines 89-90 behave as their libraries do: `prometheus.MustRegister`
panics when a collector is already registered, `http.Handle` panics on an
empty pattern and on a pattern `http.DefaultServeMux` already has.
-/

namespace Cadvisor.Http

/-! ## Data model -/

/-- Identity of a request router.  `defaultServeMux` is the process-wide
`http.DefaultServeMux`, the router `http.Handle` registers on. -/
inductive RouterRef where
  | defaultServeMux
  | custom (id : Nat)
  deriving DecidableEq, Repr

/-- The container manager handed to `RegisterHandlers`; only its identity matters. -/
structure Manager where
  id : Nat
  deriving DecidableEq, Repr

/-- Values returned by `auth.HtpasswdFileProvider` / `auth.HtdigestFileProvider`. -/
inductive SecretProvider where
  | htpasswd (file : String)
  | htdigest (file : String)
  deriving DecidableEq, Repr

/-- Value returned by `auth.NewBasicAuthenticator(realm, secrets)`. -/
structure BasicAuth where
  realm : String
  secrets : SecretProvider
  deriving DecidableEq, Repr

/-- Value returned by `auth.NewDigestAuthenticator(realm, secrets)`. -/
structure DigestAuth where
  realm : String
  secrets : SecretProvider
  deriving DecidableEq, Repr

/-- Value returned by `metrics.NewPrometheusCollector(containerManager)`. -/
structure Collector where
  manager : Manager
  deriving DecidableEq, Repr

/-- Functions of this file that take an `*auth.AuthenticatedRequest`. -/
inductive AuthHandlerFunc where
  | staticHandler
  deriving DecidableEq, Repr

/-- The handler values that get installed on a router. -/
inductive Handler where
  /-- the closure of lines 41-46, capturing `containerManager` -/
  | validateFunc (containerManager : Manager)
  /-- Go `http.RedirectHandler(url, code)` -/
  | redirectHandler (url : String) (code : Nat)
  /-- Go `authenticator.Wrap(f)` for a Basic authenticator -/
  | basicWrap (authenticator : BasicAuth) (f : AuthHandlerFunc)
  /-- Go `authenticator.Wrap(f)` for a Digest authenticator -/
  | digestWrap (authenticator : DigestAuth) (f : AuthHandlerFunc)
  /-- the function `staticHandlerNoAuth` -/
  | staticHandlerNoAuth
  /-- Go `prometheus.Handler()` -/
  | prometheusHandler
  /-- a handler installed by a collaborator package, known by a label only -/
  | foreign (label : String)
  deriving DecidableEq, Repr

/-- A registration on a router: path pattern and handler. -/
abbrev Route := String × Handler

/-- The collaborator registration functions, with the arguments they are
called with besides the router. -/
inductive Callee where
  | healthzRegisterHandler
  | apiRegisterHandlers (containerManager : Manager)
  | pagesRegisterHandlersBasic (containerManager : Manager) (authenticator : Option BasicAuth)
  | pagesRegisterHandlersDigest (containerManager : Manager) (authenticator : Option DigestAuth)
  deriving DecidableEq, Repr

/-- One observable step of the program. -/
inductive Effect where
  /-- Go `router.Handle(pattern, h)` or `router.HandleFunc(pattern, h)` made by this file -/
  | handle (router : RouterRef) (pattern : String) (h : Handler)
  /-- a call of a collaborator registration function on `router`, the routes it
  installed there and the error it returned (`none` is Go `nil`) -/
  | call (callee : Callee) (router : RouterRef) (installed : List Route) (err : Option String)
  /-- Go `glog.Infof` with the formatted message -/
  | infof (msg : String)
  | htpasswdFileProvider (file : String)
  | newBasicAuthenticator (realm : String) (secrets : SecretProvider)
  | htdigestFileProvider (file : String)
  | newDigestAuthenticator (realm : String) (secrets : SecretProvider)
  | newPrometheusCollector (containerManager : Manager)
  /-- Go `prometheus.MustRegister(collector)` on the process-wide registry -/
  | mustRegister (collector : Collector)
  deriving DecidableEq, Repr

/-- The world: every effect performed so far, oldest first. -/
abbrev Trace := List Effect

/-- An `http.ResponseWriter`: the status line once written, and the body so far. -/
structure ResponseWriter where
  status : Option Nat
  body : String
  deriving DecidableEq, Repr

/-- A request URL (`*url.URL`). -/
abbrev URL := String

/-- An `*http.Request`, reduced to the field this file reads. -/
structure Request where
  URL : URL
  deriving DecidableEq, Repr

/-- An `*auth.AuthenticatedRequest`: an embedded `http.Request` plus `Username`. -/
structure AuthenticatedRequest where
  Request : Request
  Username : String
  deriving DecidableEq, Repr

/-- Result of a collaborator registration: what it installed and its error. -/
abbrev Outcome := List Route × Option String

/-- Why a library call of lines 89-90 panics. -/
inductive Panic where
  /-- Go `prometheus.MustRegister`: the registry already holds the collector's metrics -/
  | alreadyRegistered
  /-- Go `http.Handle`: the pattern is empty -/
  | invalidPattern
  /-- Go `http.Handle`: the pattern is already registered on the router -/
  | multipleRegistrations (pattern : String)
  deriving DecidableEq, Repr

/-- How a call of `RegisterHandlers` ends: it returns an error value (`none`
is Go `nil`), or it panics and returns nothing. -/
inductive Result where
  | ret (err : Option String)
  | panicked (cause : Panic)
  deriving DecidableEq, Repr

/-- The collaborator packages, which are not part of `http/handlers.go`.
A registration function may inspect the whole world before deciding what to
install on the router it is given and whether to fail. -/
structure Env where
  /-- Go `validate.ValidatePage` -/
  ValidatePage : String
  /-- Go `pages.ContainersPage` -/
  ContainersPage : String
  /-- Go `static.StaticResource` -/
  StaticResource : String
  /-- Go `healthz.RegisterHandler(mux)` -/
  healthzRegisterHandler : RouterRef → Trace → Outcome
  /-- Go `api.RegisterHandlers(mux, m)` -/
  apiRegisterHandlers : RouterRef → Manager → Trace → Outcome
  /-- Go `pages.RegisterHandlersBasic(mux, m, authenticator)` -/
  pagesRegisterHandlersBasic : RouterRef → Manager → Option BasicAuth → Trace → Outcome
  /-- Go `pages.RegisterHandlersDigest(mux, m, authenticator)` -/
  pagesRegisterHandlersDigest : RouterRef → Manager → Option DigestAuth → Trace → Outcome
  /-- Go `validate.HandleRequest(w, m)`: the writer afterwards and the error -/
  validateHandleRequest : ResponseWriter → Manager → ResponseWriter × Option String
  /-- Go `static.HandleRequest(w, u)`: the writer afterwards and the error -/
  staticHandleRequest : ResponseWriter → URL → ResponseWriter × Option String

/-! ## Library operations -/

/-- Go `http.StatusTemporaryRedirect` -/
def StatusTemporaryRedirect : Nat := 307

/-- Go `http.StatusOK` -/
def StatusOK : Nat := 200

/-- Go `w.Write(s)`: the first write fixes the status to 200 when none was
written, then the bytes are appended to the body. -/
def ResponseWriter.write (w : ResponseWriter) (s : String) : ResponseWriter :=
  { status := some (w.status.getD StatusOK), body := w.body ++ s }

/-- Go `fmt.Fprintf(w, "%s", err)` for a non-nil `err` with text `err`. -/
def Fprintf (w : ResponseWriter) (err : String) : ResponseWriter :=
  w.write err

/-- Go `mux.Handle` / `mux.HandleFunc` on the router behind `mux`. -/
def Handle (router : RouterRef) (pattern : String) (h : Handler) (t : Trace) : Trace :=
  t ++ [Effect.handle router pattern h]

/-- Run a collaborator registration function on `router` in world `t`. -/
def invoke (callee : Callee) (router : RouterRef) (f : Trace → Outcome) (t : Trace) :
    Trace × Option String :=
  (t ++ [Effect.call callee router (f t).1 (f t).2], (f t).2)

/-- The routes recorded for `router`, in registration order. -/
def routes (router : RouterRef) : Trace → List Route
  | [] => []
  | Effect.handle r p h :: t => if r = router then (p, h) :: routes router t else routes router t
  | Effect.call _ r installed _ :: t =>
      if r = router then installed ++ routes router t else routes router t
  | _ :: t => routes router t

/-- A registration of a collector with the process-wide registry. -/
def Effect.isMustRegister : Effect → Bool
  | Effect.mustRegister _ => true
  | _ => false

/-- Whether the process-wide registry already holds a collector.  Every
collector built by `metrics.NewPrometheusCollector` describes the same
metrics, so a second one collides with the first. -/
def collectorRegistered (t : Trace) : Bool :=
  t.any Effect.isMustRegister

/-- Whether `router` already has a route with this pattern. -/
def patternRegistered (router : RouterRef) (pattern : String) (t : Trace) : Bool :=
  (routes router t).any fun x => x.1 == pattern

/-- Go `prometheus.MustRegister(collector)`: registers the collector with the
process-wide registry, or panics when registration fails because a collector
is already there.  Yields the world afterwards and the panic, if any. -/
def prometheus.MustRegister (collector : Collector) (t : Trace) : Trace × Option Panic :=
  if collectorRegistered t then (t, some Panic.alreadyRegistered)
  else (t ++ [Effect.mustRegister collector], none)

/-- Go `http.Handle(pattern, h)`: registers on `http.DefaultServeMux`, which
panics on an empty pattern and on a pattern it already has. -/
def http.Handle (pattern : String) (h : Handler) (t : Trace) : Trace × Option Panic :=
  if pattern = "" then (t, some Panic.invalidPattern)
  else if patternRegistered RouterRef.defaultServeMux pattern t then
    (t, some (Panic.multipleRegistrations pattern))
  else (Cadvisor.Http.Handle RouterRef.defaultServeMux pattern h t, none)

/-! ## The handlers of this file -/

/-- The closure registered at `validate.ValidatePage` (lines 41-46). -/
def validateFunc (env : Env) (containerManager : Manager) (w : ResponseWriter)
    (_r : Request) : ResponseWriter :=
  match env.validateHandleRequest w containerManager with
  | (w1, some err) => Fprintf w1 err
  | (w1, none) => w1

/-- Go `staticHandlerNoAuth` (lines 95-100). -/
def staticHandlerNoAuth (env : Env) (w : ResponseWriter) (r : Request) : ResponseWriter :=
  match env.staticHandleRequest w r.URL with
  | (w1, some err) => Fprintf w1 err
  | (w1, none) => w1

/-- Go `staticHandler` (lines 102-107); `r.URL` is the promoted field of the
embedded request. -/
def staticHandler (env : Env) (w : ResponseWriter) (r : AuthenticatedRequest) :
    ResponseWriter :=
  match env.staticHandleRequest w r.Request.URL with
  | (w1, some err) => Fprintf w1 err
  | (w1, none) => w1

/-! ## `RegisterHandlers` -/

/-- Control after a block of the function body: fall through to the next
statement with a value, or `return` from the function. -/
inductive Flow (α : Type) where
  | next (t : Trace) (a : α)
  | ret (t : Trace) (err : Option String)

/-- Lines 59-68: the `if httpAuthFile != ""` block.  Yields the new value of
`authenticated`. -/
def basicBlock (env : Env) (mux : RouterRef) (containerManager : Manager)
    (httpAuthFile httpAuthRealm : String) (authenticated : Bool) (t : Trace) : Flow Bool :=
  if httpAuthFile ≠ "" then
    let t := t ++ [Effect.infof ("Using auth file " ++ httpAuthFile)]
    let secrets := SecretProvider.htpasswd httpAuthFile
    let t := t ++ [Effect.htpasswdFileProvider httpAuthFile]
    let authenticator : BasicAuth := { realm := httpAuthRealm, secrets := secrets }
    let t := t ++ [Effect.newBasicAuthenticator httpAuthRealm secrets]
    let t := Handle mux env.StaticResource
      (Handler.basicWrap authenticator AuthHandlerFunc.staticHandler) t
    match invoke (Callee.pagesRegisterHandlersBasic containerManager (some authenticator)) mux
        (env.pagesRegisterHandlersBasic mux containerManager (some authenticator)) t with
    | (t, some err) => Flow.ret t (some ("failed to register pages auth handlers: " ++ err))
    | (t, none) => Flow.next t true
  else Flow.next t authenticated

/-- Lines 69-78: the `if httpAuthFile == "" && httpDigestFile != ""` block. -/
def digestBlock (env : Env) (mux : RouterRef) (containerManager : Manager)
    (httpAuthFile httpDigestFile httpDigestRealm : String) (authenticated : Bool)
    (t : Trace) : Flow Bool :=
  if httpAuthFile = "" ∧ httpDigestFile ≠ "" then
    let t := t ++ [Effect.infof ("Using digest file " ++ httpDigestFile)]
    let secrets := SecretProvider.htdigest httpDigestFile
    let t := t ++ [Effect.htdigestFileProvider httpDigestFile]
    let authenticator : DigestAuth := { realm := httpDigestRealm, secrets := secrets }
    let t := t ++ [Effect.newDigestAuthenticator httpDigestRealm secrets]
    let t := Handle mux env.StaticResource
      (Handler.digestWrap authenticator AuthHandlerFunc.staticHandler) t
    match invoke (Callee.pagesRegisterHandlersDigest containerManager (some authenticator)) mux
        (env.pagesRegisterHandlersDigest mux containerManager (some authenticator)) t with
    | (t, some err) => Flow.ret t (some ("failed to register pages digest handlers: " ++ err))
    | (t, none) => Flow.next t true
  else Flow.next t authenticated

/-- Lines 80-86: the `if !authenticated` block. -/
def noAuthBlock (env : Env) (mux : RouterRef) (containerManager : Manager)
    (authenticated : Bool) (t : Trace) : Flow Unit :=
  if !authenticated then
    let t := Handle mux env.StaticResource Handler.staticHandlerNoAuth t
    match invoke (Callee.pagesRegisterHandlersBasic containerManager none) mux
        (env.pagesRegisterHandlersBasic mux containerManager none) t with
    | (t, some err) => Flow.ret t (some ("failed to register pages handlers: " ++ err))
    | (t, none) => Flow.next t ()
  else Flow.next t ()

/-- Lines 88-92: the metrics collector, its endpoint on
`http.DefaultServeMux`, and the final `return nil`.  A panic of either
library call ends the function there. -/
def metricsBlock (containerManager : Manager) (prometheusEndpoint : String) (t : Trace) :
    Trace × Result :=
  let collector : Collector := { manager := containerManager }
  let t := t ++ [Effect.newPrometheusCollector containerManager]
  match prometheus.MustRegister collector t with
  | (t, some cause) => (t, Result.panicked cause)
  | (t, none) =>
  match http.Handle prometheusEndpoint Handler.prometheusHandler t with
  | (t, some cause) => (t, Result.panicked cause)
  | (t, none) => (t, Result.ret none)

/-- Go `RegisterHandlers` (lines 34-93), run in world `t0`: the world
afterwards and how the call ended. -/
def RegisterHandlers (env : Env) (mux : RouterRef) (containerManager : Manager)
    (httpAuthFile httpAuthRealm httpDigestFile httpDigestRealm prometheusEndpoint : String)
    (t0 : Trace) : Trace × Result :=
  -- Basic health handler.
  match invoke Callee.healthzRegisterHandler mux (env.healthzRegisterHandler mux) t0 with
  | (t, some err) => (t, Result.ret (some ("failed to register healthz handler: " ++ err)))
  | (t, none) =>
  -- Validation/Debug handler.
  let t := Handle mux env.ValidatePage (Handler.validateFunc containerManager) t
  -- Register API handler.
  match invoke (Callee.apiRegisterHandlers containerManager) mux
      (env.apiRegisterHandlers mux containerManager) t with
  | (t, some err) => (t, Result.ret (some ("failed to register API handlers: " ++ err)))
  | (t, none) =>
  -- Redirect / to containers page.
  let t := Handle mux "/" (Handler.redirectHandler env.ContainersPage StatusTemporaryRedirect) t
  let authenticated := false
  -- Setup the authenticator object
  match basicBlock env mux containerManager httpAuthFile httpAuthRealm authenticated t with
  | Flow.ret t err => (t, Result.ret err)
  | Flow.next t authenticated =>
  match digestBlock env mux containerManager httpAuthFile httpDigestFile httpDigestRealm
      authenticated t with
  | Flow.ret t err => (t, Result.ret err)
  | Flow.next t authenticated =>
  -- Change handler based on authenticator initalization
  match noAuthBlock env mux containerManager authenticated t with
  | Flow.ret t err => (t, Result.ret err)
  | Flow.next t () =>
  metricsBlock containerManager prometheusEndpoint t

/-- The effects a run of `RegisterHandlers` adds to the world `t0`. -/
def performed (env : Env) (mux : RouterRef) (containerManager : Manager)
    (httpAuthFile httpAuthRealm httpDigestFile httpDigestRealm prometheusEndpoint : String)
    (t0 : Trace) : Trace :=
  (RegisterHandlers env mux containerManager httpAuthFile httpAuthRealm httpDigestFile
    httpDigestRealm prometheusEndpoint t0).1.drop t0.length

/-- How a run of `RegisterHandlers` ends. -/
def returned (env : Env) (mux : RouterRef) (containerManager : Manager)
    (httpAuthFile httpAuthRealm httpDigestFile httpDigestRealm prometheusEndpoint : String)
    (t0 : Trace) : Result :=
  (RegisterHandlers env mux containerManager httpAuthFile httpAuthRealm httpDigestFile
    httpDigestRealm prometheusEndpoint t0).2

/-! ## A concrete environment -/

/-- A collaborator that installs the given routes and reports the given error. -/
def fixedOutcome (installed : List Route) (err : Option String) : Trace → Outcome :=
  fun _ => (installed, err)

/-- A sample environment: fixed page constants, registration functions that
install a few routes and fail as the four arguments say. -/
def sampleEnv (healthErr apiErr pagesErr digestErr : Option String) : Env where
  ValidatePage := "/validate/"
  ContainersPage := "/containers/"
  StaticResource := "/static/"
  healthzRegisterHandler := fun _ => fixedOutcome [("/healthz", Handler.foreign "healthz")] healthErr
  apiRegisterHandlers := fun _ _ => fixedOutcome [("/api/", Handler.foreign "api")] apiErr
  pagesRegisterHandlersBasic := fun _ _ _ =>
    fixedOutcome [("/containers/", Handler.foreign "containers"),
      ("/docker/", Handler.foreign "docker")] pagesErr
  pagesRegisterHandlersDigest := fun _ _ _ =>
    fixedOutcome [("/containers/", Handler.foreign "containers"),
      ("/docker/", Handler.foreign "docker")] digestErr
  validateHandleRequest := fun w _ => (w.write "ok", none)
  staticHandleRequest := fun w u =>
    if u = "/static/missing" then (w, some "unknown static resource") else (w.write u, none)

/-- The authentication strategies of the specification (section 3):
`None`, `Basic(source)`, `Digest(source)`. -/
inductive Strategy where
  | basic (realm file : String)
  | digest (realm file : String)
  | noAuth
  deriving DecidableEq, Repr

/-- Section 4.1 of the specification, in its words: strict precedence, first
match wins. -/
def selectStrategy (basicFilePath basicRealm digestFilePath digestRealm : String) : Strategy :=
  if basicFilePath ≠ "" then Strategy.basic basicRealm basicFilePath
  else if digestFilePath ≠ "" then Strategy.digest digestRealm digestFilePath
  else Strategy.noAuth

/-- The static-asset handler a strategy calls for. -/
def Strategy.staticHandler : Strategy → Handler
  | Strategy.basic realm file =>
      Handler.basicWrap ⟨realm, SecretProvider.htpasswd file⟩ AuthHandlerFunc.staticHandler
  | Strategy.digest realm file =>
      Handler.digestWrap ⟨realm, SecretProvider.htdigest file⟩ AuthHandlerFunc.staticHandler
  | Strategy.noAuth => Handler.staticHandlerNoAuth

/-- The page-group registration a strategy calls for, with its authenticator
argument (`none` is a nil authenticator). -/
def Strategy.pagesCallee (m : Manager) : Strategy → Callee
  | Strategy.basic realm file =>
      Callee.pagesRegisterHandlersBasic m (some ⟨realm, SecretProvider.htpasswd file⟩)
  | Strategy.digest realm file =>
      Callee.pagesRegisterHandlersDigest m (some ⟨realm, SecretProvider.htdigest file⟩)
  | Strategy.noAuth => Callee.pagesRegisterHandlersBasic m none

/-- The provider and authenticator a strategy constructs. -/
def Strategy.construction : Strategy → List Effect
  | Strategy.basic realm file =>
      [Effect.htpasswdFileProvider file,
       Effect.newBasicAuthenticator realm (SecretProvider.htpasswd file)]
  | Strategy.digest realm file =>
      [Effect.htdigestFileProvider file,
       Effect.newDigestAuthenticator realm (SecretProvider.htdigest file)]
  | Strategy.noAuth => []

/-- The stage named in the error of each fatal registration. -/
def stageLabel : Callee → String
  | Callee.healthzRegisterHandler => "failed to register healthz handler: "
  | Callee.apiRegisterHandlers _ => "failed to register API handlers: "
  | Callee.pagesRegisterHandlersBasic _ (some _) => "failed to register pages auth handlers: "
  | Callee.pagesRegisterHandlersDigest _ _ => "failed to register pages digest handlers: "
  | Callee.pagesRegisterHandlersBasic _ none => "failed to register pages handlers: "

/-- The error a failed stage is reported as: its label followed by the
text of the underlying error; `none` for a stage that succeeded. -/
def stageError (c : Callee × Option String) : Option String :=
  c.2.map fun e => stageLabel c.1 ++ e

/-! ## Observations on traces -/

/-- The collaborator call recorded by an effect, with its result. -/
def Effect.asCall : Effect → Option (Callee × Option String)
  | Effect.call c _ _ err => some (c, err)
  | _ => none

/-- The collaborator calls recorded in a trace, in order, with their results. -/
def callsOf (t : Trace) : List (Callee × Option String) :=
  t.filterMap Effect.asCall

/-- A registration of one of the two static-asset handlers of this file. -/
def Effect.isStaticRegistration : Effect → Bool
  | Effect.handle _ _ (Handler.basicWrap _ AuthHandlerFunc.staticHandler) => true
  | Effect.handle _ _ (Handler.digestWrap _ AuthHandlerFunc.staticHandler) => true
  | Effect.handle _ _ Handler.staticHandlerNoAuth => true
  | _ => false

/-- The two registration functions of the dashboard-page group. -/
def Callee.isPages : Callee → Bool
  | Callee.pagesRegisterHandlersBasic _ _ => true
  | Callee.pagesRegisterHandlersDigest _ _ => true
  | _ => false

/-- The page-group registration call recorded by an effect: callee and router. -/
def Effect.asPagesCall : Effect → Option (Callee × RouterRef)
  | Effect.call c r _ _ => if c.isPages then some (c, r) else none
  | _ => none

/-- The page-group registration calls of a trace. -/
def pagesCalls (t : Trace) : List (Callee × RouterRef) :=
  t.filterMap Effect.asPagesCall

/-- Construction of a credential-file provider or of an authenticator. -/
def Effect.isAuthConstruction : Effect → Bool
  | Effect.htpasswdFileProvider _ => true
  | Effect.newBasicAuthenticator _ _ => true
  | Effect.htdigestFileProvider _ => true
  | Effect.newDigestAuthenticator _ _ => true
  | _ => false

/-- Construction or registration of the metrics collector, or exposure of
the scrape handler on any router. -/
def Effect.isMetrics : Effect → Bool
  | Effect.newPrometheusCollector _ => true
  | Effect.mustRegister _ => true
  | Effect.handle _ _ Handler.prometheusHandler => true
  | _ => false

/-- The handler a router answers with for a pattern: of the registrations
recorded for that pattern, the last one wins. -/
def handlerAt (router : RouterRef) (pattern : String) (t : Trace) : Option Handler :=
  ((routes router t).reverse.find? fun x => x.1 == pattern).map Prod.snd

/-- The effects of a trace other than those of the metrics block. -/
def withoutMetrics (t : Trace) : Trace :=
  t.filter fun x => !x.isMetrics

/-- Construction of the Digest credential-file provider or authenticator. -/
def Effect.isDigestConstruction : Effect → Bool
  | Effect.htdigestFileProvider _ => true
  | Effect.newDigestAuthenticator _ _ => true
  | _ => false

/-- The stage label the claim gives for the page group of each strategy. -/
def Strategy.failureLabel : Strategy → String
  | Strategy.basic _ _ => "failed to register pages auth handlers: "
  | Strategy.digest _ _ => "failed to register pages digest handlers: "
  | Strategy.noAuth => "failed to register pages handlers: "

/-! ## Shapes of a run -/

/-- Effects up to and including the root redirect, when health and API
registration succeed having installed `hr` and `ar`. -/
def preamble (env : Env) (mux : RouterRef) (m : Manager) (hr ar : List Route) : Trace :=
  [Effect.call Callee.healthzRegisterHandler mux hr none,
   Effect.handle mux env.ValidatePage (Handler.validateFunc m),
   Effect.call (Callee.apiRegisterHandlers m) mux ar none,
   Effect.handle mux "/" (Handler.redirectHandler env.ContainersPage StatusTemporaryRedirect)]

/-- The log line a strategy emits. -/
def Strategy.logLine : Strategy → List Effect
  | Strategy.basic _ file => [Effect.infof ("Using auth file " ++ file)]
  | Strategy.digest _ file => [Effect.infof ("Using digest file " ++ file)]
  | Strategy.noAuth => []

/-- Effects of the block of a strategy before its page-group call: log line,
construction, static-asset registration. -/
def Strategy.setup (env : Env) (mux : RouterRef) (s : Strategy) : Trace :=
  s.logLine ++ s.construction ++ [Effect.handle mux env.StaticResource s.staticHandler]

/-- Effects of the metrics block. -/
def metricsTail (m : Manager) (endpoint : String) : Trace :=
  [Effect.newPrometheusCollector m,
   Effect.mustRegister ⟨m⟩,
   Effect.handle RouterRef.defaultServeMux endpoint Handler.prometheusHandler]

/-- Effects of a run up to the metrics block, when all three stages succeed
having installed `hr`, `ar` and `pr`. -/
def beforeMetrics (env : Env) (mux : RouterRef) (m : Manager) (s : Strategy)
    (hr ar pr : List Route) : Trace :=
  preamble env mux m hr ar ++ s.setup env mux ++ [Effect.call (s.pagesCallee m) mux pr none]

/-- The seven ways a run under strategy `s` from world `t0` can go, each with
the effects performed and how the call ends. -/
inductive RunShape (env : Env) (mux : RouterRef) (m : Manager) (s : Strategy)
    (endpoint : String) (t0 : Trace) : Trace → Result → Prop where
  | healthFailed (hr : List Route) (e : String) :
      RunShape env mux m s endpoint t0
        [Effect.call Callee.healthzRegisterHandler mux hr (some e)]
        (Result.ret (some ("failed to register healthz handler: " ++ e)))
  | apiFailed (hr ar : List Route) (e : String) :
      RunShape env mux m s endpoint t0
        [Effect.call Callee.healthzRegisterHandler mux hr none,
         Effect.handle mux env.ValidatePage (Handler.validateFunc m),
         Effect.call (Callee.apiRegisterHandlers m) mux ar (some e)]
        (Result.ret (some ("failed to register API handlers: " ++ e)))
  | pagesFailed (hr ar pr : List Route) (e : String) :
      RunShape env mux m s endpoint t0
        (preamble env mux m hr ar ++ s.setup env mux ++
          [Effect.call (s.pagesCallee m) mux pr (some e)])
        (Result.ret (some (stageLabel (s.pagesCallee m) ++ e)))
  | collectorPanic (hr ar pr : List Route) (hbusy : collectorRegistered t0 = true) :
      RunShape env mux m s endpoint t0
        (beforeMetrics env mux m s hr ar pr ++ [Effect.newPrometheusCollector m])
        (Result.panicked Panic.alreadyRegistered)
  | patternInvalid (hr ar pr : List Route) (hfree : collectorRegistered t0 = false)
      (hp : endpoint = "") :
      RunShape env mux m s endpoint t0
        (beforeMetrics env mux m s hr ar pr ++
          [Effect.newPrometheusCollector m, Effect.mustRegister ⟨m⟩])
        (Result.panicked Panic.invalidPattern)
  | patternTaken (hr ar pr : List Route) (hfree : collectorRegistered t0 = false)
      (hp : endpoint ≠ "")
      (htaken : patternRegistered RouterRef.defaultServeMux endpoint
        (t0 ++ beforeMetrics env mux m s hr ar pr) = true) :
      RunShape env mux m s endpoint t0
        (beforeMetrics env mux m s hr ar pr ++
          [Effect.newPrometheusCollector m, Effect.mustRegister ⟨m⟩])
        (Result.panicked (Panic.multipleRegistrations endpoint))
  | done (hr ar pr : List Route) (hfree : collectorRegistered t0 = false)
      (hp : endpoint ≠ "")
      (hnew : patternRegistered RouterRef.defaultServeMux endpoint
        (t0 ++ beforeMetrics env mux m s hr ar pr) = false) :
      RunShape env mux m s endpoint t0
        (beforeMetrics env mux m s hr ar pr ++ metricsTail m endpoint)
        (Result.ret none)

/-! ## Symbolic execution -/

/-- The routes of a world are those of its parts, in order. -/
theorem routes_append (r : RouterRef) (t1 t2 : Trace) :
    routes r (t1 ++ t2) = routes r t1 ++ routes r t2 := by
  induction t1 with
  | nil => rfl
  | cons e t ih =>
    cases e <;> simp only [List.cons_append, routes] <;> (try split) <;> simp [ih]

/-- No collector is registered by the effects that precede the metrics block. -/
theorem collectorRegistered_beforeMetrics (env : Env) (mux : RouterRef) (m : Manager)
    (s : Strategy) (hr ar pr : List Route) :
    collectorRegistered (beforeMetrics env mux m s hr ar pr) = false := by
  rcases s with ⟨_, _⟩ | ⟨_, _⟩ | _ <;>
    simp [collectorRegistered, beforeMetrics, preamble, Strategy.setup, Strategy.logLine,
      Strategy.construction, Effect.isMustRegister]

/-- The effects that precede the metrics block contain none of its effects. -/
theorem withoutMetrics_beforeMetrics (env : Env) (mux : RouterRef) (m : Manager)
    (s : Strategy) (hr ar pr : List Route) :
    withoutMetrics (beforeMetrics env mux m s hr ar pr) = beforeMetrics env mux m s hr ar pr := by
  rcases s with ⟨_, _⟩ | ⟨_, _⟩ | _ <;>
    simp [withoutMetrics, beforeMetrics, preamble, Strategy.setup, Strategy.logLine,
      Strategy.construction, Strategy.staticHandler, Effect.isMetrics]

/-- The metrics block, run after three successful stages, ends in one of the
four last shapes. -/
theorem metricsBlock_shape (env : Env) (mux : RouterRef) (m : Manager) (s : Strategy)
    (p : String) (t0 : Trace) (hr ar pr : List Route) :
    ∃ P R, metricsBlock m p (t0 ++ beforeMetrics env mux m s hr ar pr) = (t0 ++ P, R) ∧
      RunShape env mux m s p t0 P R := by
  have hpre := collectorRegistered_beforeMetrics env mux m s hr ar pr
  have hreg : collectorRegistered (t0 ++ beforeMetrics env mux m s hr ar pr ++
      [Effect.newPrometheusCollector m]) = collectorRegistered t0 := by
    simp only [collectorRegistered] at hpre ⊢
    simp [List.any_append, hpre, Effect.isMustRegister]
  have hpat : patternRegistered RouterRef.defaultServeMux p
      (t0 ++ beforeMetrics env mux m s hr ar pr ++ [Effect.newPrometheusCollector m] ++
        [Effect.mustRegister ⟨m⟩]) =
      patternRegistered RouterRef.defaultServeMux p
        (t0 ++ beforeMetrics env mux m s hr ar pr) := by
    simp [patternRegistered, routes_append, routes]
  unfold metricsBlock prometheus.MustRegister
  simp only [hreg]
  cases hbusy : collectorRegistered t0
  case true =>
    refine ⟨_, _, ?_, RunShape.collectorPanic hr ar pr hbusy⟩
    simp
  case false =>
    simp only [Bool.false_eq_true, if_false]
    unfold http.Handle
    by_cases hp : p = ""
    · refine ⟨_, _, ?_, RunShape.patternInvalid hr ar pr hbusy hp⟩
      simp [hp]
    · simp only [hp, if_false, hpat]
      rcases htaken : patternRegistered RouterRef.defaultServeMux p
          (t0 ++ beforeMetrics env mux m s hr ar pr) with _ | _
      · refine ⟨_, _, ?_, RunShape.done hr ar pr hbusy hp htaken⟩
        simp [Handle, metricsTail]
      · refine ⟨_, _, ?_, RunShape.patternTaken hr ar pr hbusy hp htaken⟩
        simp

/-- Every run extends the world by effects of one of the seven shapes, under
the strategy the specification selects. -/
theorem RegisterHandlers_shape (env : Env) (mux : RouterRef) (m : Manager)
    (a ar d dr p : String) (t0 : Trace) :
    ∃ P R, RegisterHandlers env mux m a ar d dr p t0 = (t0 ++ P, R) ∧
      RunShape env mux m (selectStrategy a ar d dr) p t0 P R := by
  unfold RegisterHandlers invoke
  rcases hH : env.healthzRegisterHandler mux t0 with ⟨hr, _ | e⟩
  case some => exact ⟨_, _, rfl, RunShape.healthFailed hr e⟩
  simp only [Handle]
  rcases hA : env.apiRegisterHandlers mux m _ with ⟨ar1, _ | e⟩
  case some =>
    refine ⟨_, _, ?_, RunShape.apiFailed hr ar1 e⟩
    simp
  by_cases ha : a = ""
  · by_cases hd : d = ""
    · subst ha hd
      have hs : selectStrategy "" ar "" dr = Strategy.noAuth := by simp [selectStrategy]
      simp only [basicBlock, digestBlock, noAuthBlock, invoke, Handle, hs]
      simp only [ne_eq, not_true_eq_false, if_false, and_false, Bool.not_false, if_true]
      rcases hP : env.pagesRegisterHandlersBasic mux m none _ with ⟨pr, _ | e⟩
      · obtain ⟨P, R, h1, h2⟩ := metricsBlock_shape env mux m Strategy.noAuth p t0 hr ar1 pr
        refine ⟨P, R, ?_, h2⟩
        rw [← h1]
        simp [beforeMetrics, preamble, Strategy.setup, Strategy.logLine,
          Strategy.construction, Strategy.staticHandler, Strategy.pagesCallee]
      · refine ⟨_, _, ?_, RunShape.pagesFailed hr ar1 pr e⟩
        simp [preamble, Strategy.setup, Strategy.logLine, Strategy.construction,
          Strategy.staticHandler, Strategy.pagesCallee, stageLabel]
    · subst ha
      have hs : selectStrategy "" ar d dr = Strategy.digest dr d := by
        simp [selectStrategy, hd]
      simp only [basicBlock, digestBlock, noAuthBlock, hd, invoke, Handle, ne_eq,
        not_true_eq_false, not_false_eq_true, if_false, and_self, if_true, hs]
      rcases hP : env.pagesRegisterHandlersDigest mux m _ _ with ⟨pr, _ | e⟩
      · obtain ⟨P, R, h1, h2⟩ :=
          metricsBlock_shape env mux m (Strategy.digest dr d) p t0 hr ar1 pr
        refine ⟨P, R, ?_, h2⟩
        rw [← h1]
        simp [beforeMetrics, preamble, Strategy.setup, Strategy.logLine,
          Strategy.construction, Strategy.staticHandler, Strategy.pagesCallee]
      · refine ⟨_, _, ?_, RunShape.pagesFailed hr ar1 pr e⟩
        simp [preamble, Strategy.setup, Strategy.logLine, Strategy.construction,
          Strategy.staticHandler, Strategy.pagesCallee, stageLabel]
  · have hs : selectStrategy a ar d dr = Strategy.basic ar a := by simp [selectStrategy, ha]
    simp only [basicBlock, digestBlock, noAuthBlock, ha, invoke, Handle, ne_eq,
      not_false_eq_true, if_true, hs]
    rcases hP : env.pagesRegisterHandlersBasic mux m _ _ with ⟨pr, _ | e⟩
    · obtain ⟨P, R, h1, h2⟩ :=
        metricsBlock_shape env mux m (Strategy.basic ar a) p t0 hr ar1 pr
      refine ⟨P, R, ?_, h2⟩
      rw [← h1]
      simp [beforeMetrics, preamble, Strategy.setup, Strategy.logLine,
        Strategy.construction, Strategy.staticHandler, Strategy.pagesCallee]
    · refine ⟨_, _, ?_, RunShape.pagesFailed hr ar1 pr e⟩
      simp [preamble, Strategy.setup, Strategy.logLine, Strategy.construction,
        Strategy.staticHandler, Strategy.pagesCallee, stageLabel]

/-- The effects performed and the way the call ends have one of the seven
shapes, and the world afterwards is the old world followed by those effects. -/
theorem run_shape (env : Env) (mux : RouterRef) (m : Manager)
    (a ar d dr p : String) (t0 : Trace) :
    RunShape env mux m (selectStrategy a ar d dr) p t0 (performed env mux m a ar d dr p t0)
        (returned env mux m a ar d dr p t0) ∧
      (RegisterHandlers env mux m a ar d dr p t0).1 = t0 ++ performed env mux m a ar d dr p t0 := by
  obtain ⟨P, R, h, hs⟩ := RegisterHandlers_shape env mux m a ar d dr p t0
  simp only [performed, returned, h, List.drop_left]
  exact ⟨hs, trivial⟩


/-! ## The authentication stage -/

/-- C1. Once health and API registration have succeeded, a run registers a
static-asset handler exactly once (at `static.StaticResource`, on `mux`) and
calls a page-group registration exactly once, both for the one strategy the
selection rule gives, and constructs the provider and authenticator of that
strategy and no other: Basic from `(httpAuthRealm, httpAuthFile)` when
`httpAuthFile` is non-empty, else Digest from `(httpDigestRealm,
httpDigestFile)` when `httpDigestFile` is non-empty, else none
(`staticHandlerNoAuth`, nil authenticator).  With both files set it is Basic. -/
theorem auth_stage_registers_once_under_selected_strategy (env : Env) (mux : RouterRef)
    (m : Manager) (a ar d dr p : String) (t0 : Trace)
    (hH : (Callee.healthzRegisterHandler, none) ∈ callsOf (performed env mux m a ar d dr p t0))
    (hA : (Callee.apiRegisterHandlers m, none) ∈ callsOf (performed env mux m a ar d dr p t0)) :
    (performed env mux m a ar d dr p t0).filter Effect.isStaticRegistration =
        [Effect.handle mux env.StaticResource (selectStrategy a ar d dr).staticHandler] ∧
      pagesCalls (performed env mux m a ar d dr p t0) =
        [((selectStrategy a ar d dr).pagesCallee m, mux)] ∧
      (performed env mux m a ar d dr p t0).filter Effect.isAuthConstruction =
        (selectStrategy a ar d dr).construction ∧
      (a ≠ "" → selectStrategy a ar d dr = Strategy.basic ar a) ∧
      (a = "" → d ≠ "" → selectStrategy a ar d dr = Strategy.digest dr d) ∧
      (a = "" → d = "" → selectStrategy a ar d dr = Strategy.noAuth) := by
  refine ⟨?_, ?_, ?_, ?_, ?_, ?_⟩
  iterate 3
    obtain ⟨hs, -⟩ := run_shape env mux m a ar d dr p t0
    generalize performed env mux m a ar d dr p t0 = P at hH hA hs ⊢
    generalize returned env mux m a ar d dr p t0 = R at hs
    generalize selectStrategy a ar d dr = S at hs ⊢
    cases hs <;> rcases S with ⟨_, _⟩ | ⟨_, _⟩ | _ <;>
      simp_all [callsOf, pagesCalls, beforeMetrics, preamble, metricsTail, Strategy.setup,
        Strategy.logLine,
        Strategy.construction, Strategy.staticHandler, Strategy.pagesCallee, Effect.asCall,
        Effect.asPagesCall, Effect.isStaticRegistration, Callee.isPages,
        Effect.isAuthConstruction]
  · intro ha; simp [selectStrategy, ha]
  · intro ha hd; simp [selectStrategy, ha, hd]
  · intro ha hd; simp [selectStrategy, ha, hd]

/-- Witness for C1: both credential files set, every collaborator succeeding. -/
theorem auth_stage_registers_once_under_selected_strategy_witness :
    (Callee.healthzRegisterHandler, none) ∈
        callsOf (performed (sampleEnv none none none none) (RouterRef.custom 0) ⟨1⟩
          "auth.htpasswd" "realm" "auth.htdigest" "drealm" "/metrics" []) ∧
      (Callee.apiRegisterHandlers ⟨1⟩, none) ∈
        callsOf (performed (sampleEnv none none none none) (RouterRef.custom 0) ⟨1⟩
          "auth.htpasswd" "realm" "auth.htdigest" "drealm" "/metrics" []) ∧
      (performed (sampleEnv none none none none) (RouterRef.custom 0) ⟨1⟩
          "auth.htpasswd" "realm" "auth.htdigest" "drealm" "/metrics" []).filter
          Effect.isStaticRegistration =
        [Effect.handle (RouterRef.custom 0) "/static/"
          (Handler.basicWrap ⟨"realm", SecretProvider.htpasswd "auth.htpasswd"⟩
            AuthHandlerFunc.staticHandler)] ∧
      pagesCalls (performed (sampleEnv none none none none) (RouterRef.custom 0) ⟨1⟩
          "auth.htpasswd" "realm" "auth.htdigest" "drealm" "/metrics" []) =
        [(Callee.pagesRegisterHandlersBasic ⟨1⟩
          (some ⟨"realm", SecretProvider.htpasswd "auth.htpasswd"⟩), RouterRef.custom 0)] :=
  ⟨by decide, by decide,
    (auth_stage_registers_once_under_selected_strategy (sampleEnv none none none none)
      (RouterRef.custom 0) ⟨1⟩ "auth.htpasswd" "realm" "auth.htdigest" "drealm" "/metrics" []
      (by decide) (by decide)).1,
    (auth_stage_registers_once_under_selected_strategy (sampleEnv none none none none)
      (RouterRef.custom 0) ⟨1⟩ "auth.htpasswd" "realm" "auth.htdigest" "drealm" "/metrics" []
      (by decide) (by decide)).2.1⟩

/-! ## Failure of the health and API stages -/

/-- C2. If `healthz.RegisterHandler` returns an error `e`, `RegisterHandlers`
returns the non-nil error "failed to register healthz handler: e" and the
health call is the only effect of the run: no path is registered by this
file, no other collaborator is called, no authenticator and no metrics
collector is constructed. -/
theorem health_failure_short_circuits (env : Env) (mux : RouterRef) (m : Manager)
    (a ar d dr p : String) (t0 : Trace) (e : String)
    (h : (env.healthzRegisterHandler mux t0).2 = some e) :
    returned env mux m a ar d dr p t0 =
        Result.ret (some ("failed to register healthz handler: " ++ e)) ∧
      performed env mux m a ar d dr p t0 =
        [Effect.call Callee.healthzRegisterHandler mux (env.healthzRegisterHandler mux t0).1
          (some e)] ∧
      (RegisterHandlers env mux m a ar d dr p t0).1 =
        t0 ++ performed env mux m a ar d dr p t0 := by
  refine ⟨?_, ?_, (run_shape env mux m a ar d dr p t0).2⟩
  · simp [returned, RegisterHandlers, invoke, h]
  · simp [performed, RegisterHandlers, invoke, h]

/-- Witness for C2: the health registration fails with "boom". -/
theorem health_failure_short_circuits_witness :
    ((sampleEnv (some "boom") none none none).healthzRegisterHandler (RouterRef.custom 0)
        []).2 = some "boom" ∧
      returned (sampleEnv (some "boom") none none none) (RouterRef.custom 0) ⟨1⟩
          "auth.htpasswd" "realm" "" "" "/metrics" [] =
        Result.ret (some ("failed to register healthz handler: " ++ "boom")) ∧
      performed (sampleEnv (some "boom") none none none) (RouterRef.custom 0) ⟨1⟩
          "auth.htpasswd" "realm" "" "" "/metrics" [] =
        [Effect.call Callee.healthzRegisterHandler (RouterRef.custom 0)
          [("/healthz", Handler.foreign "healthz")] (some "boom")] :=
  ⟨by decide,
    (health_failure_short_circuits (sampleEnv (some "boom") none none none)
      (RouterRef.custom 0) ⟨1⟩ "auth.htpasswd" "realm" "" "" "/metrics" [] "boom"
      (by decide)).1,
    (health_failure_short_circuits (sampleEnv (some "boom") none none none)
      (RouterRef.custom 0) ⟨1⟩ "auth.htpasswd" "realm" "" "" "/metrics" [] "boom"
      (by decide)).2.1⟩

/-- C3. If health registration succeeds and `api.RegisterHandlers` returns an
error `e`, `RegisterHandlers` returns "failed to register API handlers: e";
the run consists of the health call, the validation registration and the API
call and nothing later (no root redirect, static-asset, pages or metrics
registration); and the routes the health stage installed and the validation
registration are in the router afterwards. -/
theorem api_failure_keeps_earlier_routes (env : Env) (mux : RouterRef) (m : Manager)
    (a ar d dr p : String) (t0 : Trace) (e : String)
    (hH : (Callee.healthzRegisterHandler, none) ∈ callsOf (performed env mux m a ar d dr p t0))
    (hA : (Callee.apiRegisterHandlers m, some e) ∈
      callsOf (performed env mux m a ar d dr p t0)) :
    returned env mux m a ar d dr p t0 =
        Result.ret (some ("failed to register API handlers: " ++ e)) ∧
      ∃ healthRoutes apiRoutes,
        performed env mux m a ar d dr p t0 =
          [Effect.call Callee.healthzRegisterHandler mux healthRoutes none,
           Effect.handle mux env.ValidatePage (Handler.validateFunc m),
           Effect.call (Callee.apiRegisterHandlers m) mux apiRoutes (some e)] ∧
        (∀ x ∈ healthRoutes, x ∈ routes mux (RegisterHandlers env mux m a ar d dr p t0).1) ∧
        (env.ValidatePage, Handler.validateFunc m) ∈
          routes mux (RegisterHandlers env mux m a ar d dr p t0).1 := by
  obtain ⟨hs, hw⟩ := run_shape env mux m a ar d dr p t0
  rw [hw]
  generalize performed env mux m a ar d dr p t0 = P at hH hA hs ⊢
  generalize returned env mux m a ar d dr p t0 = R at hs ⊢
  generalize selectStrategy a ar d dr = S at hs
  cases hs
  case apiFailed hr ar1 e1 =>
    have he : e = e1 := by simpa [callsOf, Effect.asCall] using hA
    subst he
    refine ⟨rfl, hr, ar1, rfl, ?_, ?_⟩
    · intro x hx
      simp [routes_append, routes, hx]
    · simp [routes_append, routes]
  all_goals
    rcases S with ⟨_, _⟩ | ⟨_, _⟩ | _ <;>
      simp [callsOf, beforeMetrics, preamble, metricsTail, Strategy.setup, Strategy.logLine,
        Strategy.construction, Strategy.pagesCallee, Effect.asCall] at hH hA

/-- Witness for C3: health succeeds, the API registration fails with "boom". -/
theorem api_failure_keeps_earlier_routes_witness :
    (Callee.healthzRegisterHandler, none) ∈
        callsOf (performed (sampleEnv none (some "boom") none none) (RouterRef.custom 0) ⟨1⟩
          "auth.htpasswd" "realm" "" "" "/metrics" []) ∧
      (Callee.apiRegisterHandlers ⟨1⟩, some "boom") ∈
        callsOf (performed (sampleEnv none (some "boom") none none) (RouterRef.custom 0) ⟨1⟩
          "auth.htpasswd" "realm" "" "" "/metrics" []) ∧
      returned (sampleEnv none (some "boom") none none) (RouterRef.custom 0) ⟨1⟩
          "auth.htpasswd" "realm" "" "" "/metrics" [] =
        Result.ret (some ("failed to register API handlers: " ++ "boom")) :=
  ⟨by decide, by decide,
    (api_failure_keeps_earlier_routes (sampleEnv none (some "boom") none none)
      (RouterRef.custom 0) ⟨1⟩ "auth.htpasswd" "realm" "" "" "/metrics" [] "boom"
      (by decide) (by decide)).1⟩

/-! ## The metrics endpoint -/

/-- A run that returns nil builds and registers the collector once and
exposes the scrape handler once, on `http.DefaultServeMux`. -/
theorem metrics_endpoint_on_default_router (env : Env) (mux : RouterRef) (m : Manager)
    (a ar d dr p : String) (t0 : Trace)
    (h : returned env mux m a ar d dr p t0 = Result.ret none) :
    (performed env mux m a ar d dr p t0).filter Effect.isMetrics =
      [Effect.newPrometheusCollector m, Effect.mustRegister ⟨m⟩,
       Effect.handle RouterRef.defaultServeMux p Handler.prometheusHandler] := by
  obtain ⟨hs, -⟩ := run_shape env mux m a ar d dr p t0
  generalize performed env mux m a ar d dr p t0 = P at hs ⊢
  generalize returned env mux m a ar d dr p t0 = R at hs h
  generalize selectStrategy a ar d dr = S at hs
  cases hs <;> rcases S with ⟨_, _⟩ | ⟨_, _⟩ | _ <;>
    simp_all [beforeMetrics, preamble, metricsTail, Strategy.setup, Strategy.logLine,
      Strategy.construction, Strategy.staticHandler, Effect.isMetrics]

/-- After a run that returns nil, `http.DefaultServeMux` has the scrape
handler among its routes at `prometheusEndpoint`, whichever router was
passed as `mux`. -/
theorem metrics_route_on_default_router (env : Env) (mux : RouterRef) (m : Manager)
    (a ar d dr p : String) (t0 : Trace)
    (h : returned env mux m a ar d dr p t0 = Result.ret none) :
    (p, Handler.prometheusHandler) ∈
      routes RouterRef.defaultServeMux (RegisterHandlers env mux m a ar d dr p t0).1 := by
  obtain ⟨hs, hw⟩ := run_shape env mux m a ar d dr p t0
  rw [hw]
  generalize performed env mux m a ar d dr p t0 = P at hs ⊢
  generalize returned env mux m a ar d dr p t0 = R at hs h
  cases hs
  case done =>
    simp only [routes_append, List.mem_append]
    right; right
    simp [routes, metricsTail]
  all_goals simp at h

/-- C4, the code at the failing input: with a router other than
`http.DefaultServeMux` and every collaborator succeeding, `RegisterHandlers`
returns nil, the router passed as `mux` has no route at `prometheusEndpoint`,
and the scrape handler sits on `http.DefaultServeMux` instead. -/
theorem metrics_endpoint_misses_given_router :
    returned (sampleEnv none none none none) (RouterRef.custom 0) ⟨1⟩ "" "" "" ""
        "/metrics" [] = Result.ret none ∧
      (∀ x ∈ routes (RouterRef.custom 0)
          (RegisterHandlers (sampleEnv none none none none) (RouterRef.custom 0) ⟨1⟩ "" "" "" ""
            "/metrics" []).1, x.1 ≠ "/metrics") ∧
      routes RouterRef.defaultServeMux
          (RegisterHandlers (sampleEnv none none none none) (RouterRef.custom 0) ⟨1⟩ "" "" "" ""
            "/metrics" []).1 = [("/metrics", Handler.prometheusHandler)] := by
  decide

/-! ## The returned error -/

/-- The effects of the metrics block are dropped by `withoutMetrics`. -/
theorem withoutMetrics_append (t1 t2 : Trace) :
    withoutMetrics (t1 ++ t2) = withoutMetrics t1 ++ withoutMetrics t2 := by
  simp [withoutMetrics]

/-- C5 refuted as stated: with all three stages succeeding and an empty
`prometheusEndpoint`, `RegisterHandlers` does not return nil, it panics in
`http.Handle`; and a second run in the world the first one left panics in
`prometheus.MustRegister`. -/
theorem nil_return_refuted_by_metrics_panic :
    callsOf (performed (sampleEnv none none none none) (RouterRef.custom 0) ⟨1⟩
        "" "" "" "" "" []) =
      [(Callee.healthzRegisterHandler, none), (Callee.apiRegisterHandlers ⟨1⟩, none),
       (Callee.pagesRegisterHandlersBasic ⟨1⟩ none, none)] ∧
      returned (sampleEnv none none none none) (RouterRef.custom 0) ⟨1⟩
        "" "" "" "" "" [] = Result.panicked Panic.invalidPattern ∧
      returned (sampleEnv none none none none) (RouterRef.custom 0) ⟨1⟩
        "" "" "" "" "" [] ≠ Result.ret none ∧
      returned (sampleEnv none none none none) (RouterRef.custom 1) ⟨1⟩
        "" "" "" "" "/metrics2"
        (RegisterHandlers (sampleEnv none none none none) (RouterRef.custom 0) ⟨1⟩
          "" "" "" "" "/metrics" []).1 = Result.panicked Panic.alreadyRegistered := by
  decide

/-- C5, amended. `RegisterHandlers` returns a non-nil error exactly when one
of the collaborator calls of the run failed, and then the error is that of
the first failed call: its stage label followed by the underlying text.  The
calls of a run are an initial part of health, API, page group of the selected
strategy, in this order.  All three are made and succeed exactly when the run
ends in nil or in a panic of the metrics block; then it panics when a
collector is already registered, else when `prometheusEndpoint` is empty,
else when `http.DefaultServeMux` already has that pattern, and returns nil
otherwise.  The page-group label is the one of the strategy. -/
theorem returned_error_is_first_failing_stage (env : Env) (mux : RouterRef) (m : Manager)
    (a ar d dr p : String) (t0 : Trace) :
    ((∃ msg, returned env mux m a ar d dr p t0 = Result.ret (some msg)) ↔
        ∃ c e, (c, some e) ∈ callsOf (performed env mux m a ar d dr p t0)) ∧
      (∀ msg, returned env mux m a ar d dr p t0 = Result.ret (some msg) ↔
        (callsOf (performed env mux m a ar d dr p t0)).findSome? stageError = some msg) ∧
      (∃ notReached, (callsOf (performed env mux m a ar d dr p t0)).map Prod.fst ++ notReached =
        [Callee.healthzRegisterHandler, Callee.apiRegisterHandlers m,
         (selectStrategy a ar d dr).pagesCallee m]) ∧
      (callsOf (performed env mux m a ar d dr p t0) =
          [(Callee.healthzRegisterHandler, none), (Callee.apiRegisterHandlers m, none),
           ((selectStrategy a ar d dr).pagesCallee m, none)] ↔
        (returned env mux m a ar d dr p t0 = Result.ret none ∨
          ∃ cause, returned env mux m a ar d dr p t0 = Result.panicked cause)) ∧
      (callsOf (performed env mux m a ar d dr p t0) =
          [(Callee.healthzRegisterHandler, none), (Callee.apiRegisterHandlers m, none),
           ((selectStrategy a ar d dr).pagesCallee m, none)] →
        (collectorRegistered t0 = true →
          returned env mux m a ar d dr p t0 = Result.panicked Panic.alreadyRegistered) ∧
        (collectorRegistered t0 = false → p = "" →
          returned env mux m a ar d dr p t0 = Result.panicked Panic.invalidPattern) ∧
        (collectorRegistered t0 = false → p ≠ "" →
          patternRegistered RouterRef.defaultServeMux p
            (t0 ++ withoutMetrics (performed env mux m a ar d dr p t0)) = true →
          returned env mux m a ar d dr p t0 =
            Result.panicked (Panic.multipleRegistrations p)) ∧
        (collectorRegistered t0 = false → p ≠ "" →
          patternRegistered RouterRef.defaultServeMux p
            (t0 ++ withoutMetrics (performed env mux m a ar d dr p t0)) = false →
          returned env mux m a ar d dr p t0 = Result.ret none)) ∧
      stageLabel Callee.healthzRegisterHandler = "failed to register healthz handler: " ∧
      stageLabel (Callee.apiRegisterHandlers m) = "failed to register API handlers: " ∧
      stageLabel ((selectStrategy a ar d dr).pagesCallee m) =
        (selectStrategy a ar d dr).failureLabel := by
  obtain ⟨hs, -⟩ := run_shape env mux m a ar d dr p t0
  generalize performed env mux m a ar d dr p t0 = P at hs ⊢
  generalize returned env mux m a ar d dr p t0 = R at hs ⊢
  generalize selectStrategy a ar d dr = S at hs ⊢
  have hl : stageLabel (S.pagesCallee m) = S.failureLabel := by
    rcases S with ⟨_, _⟩ | ⟨_, _⟩ | _ <;> rfl
  refine ⟨?_, ?_, ?_, ?_, ?_, rfl, rfl, hl⟩
  iterate 4
    cases hs <;> rcases S with ⟨_, _⟩ | ⟨_, _⟩ | _ <;>
      simp [callsOf, beforeMetrics, preamble, metricsTail, Strategy.setup, Strategy.logLine,
        Strategy.construction, Strategy.pagesCallee, Effect.asCall, stageError, stageLabel]
  · intro hc
    cases hs
    case healthFailed => simp [callsOf, Effect.asCall] at hc
    case apiFailed => simp [callsOf, Effect.asCall] at hc
    case pagesFailed =>
      rcases S with ⟨_, _⟩ | ⟨_, _⟩ | _ <;>
        simp [callsOf, preamble, Strategy.setup, Strategy.logLine,
          Strategy.construction, Strategy.pagesCallee, Effect.asCall] at hc
    case collectorPanic hr ar1 pr hbusy => simp [hbusy]
    case patternInvalid hr ar1 pr hfree hp => simp [hfree, hp]
    case patternTaken hr ar1 pr hfree hp htaken =>
      have hw : withoutMetrics (beforeMetrics env mux m S hr ar1 pr ++
          [Effect.newPrometheusCollector m, Effect.mustRegister ⟨m⟩]) =
          beforeMetrics env mux m S hr ar1 pr := by
        rw [withoutMetrics_append, withoutMetrics_beforeMetrics]
        simp [withoutMetrics, Effect.isMetrics]
      simp [hw, hfree, hp, htaken]
    case done hr ar1 pr hfree hp hnew =>
      have hw : withoutMetrics (beforeMetrics env mux m S hr ar1 pr ++ metricsTail m p) =
          beforeMetrics env mux m S hr ar1 pr := by
        rw [withoutMetrics_append, withoutMetrics_beforeMetrics]
        simp [withoutMetrics, metricsTail, Effect.isMetrics]
      simp [hw, hfree, hp, hnew]

/-- Witness for C5: on the sample environment, in an empty world and with the
endpoint "/metrics", all three stages succeed and the run returns nil. -/
theorem returned_error_is_first_failing_stage_witness :
    callsOf (performed (sampleEnv none none none none) (RouterRef.custom 0) ⟨1⟩
        "" "" "" "" "/metrics" []) =
      [(Callee.healthzRegisterHandler, none), (Callee.apiRegisterHandlers ⟨1⟩, none),
       (Callee.pagesRegisterHandlersBasic ⟨1⟩ none, none)] ∧
      returned (sampleEnv none none none none) (RouterRef.custom 0) ⟨1⟩
        "" "" "" "" "/metrics" [] = Result.ret none :=
  ⟨by decide,
    ((returned_error_is_first_failing_stage (sampleEnv none none none none)
      (RouterRef.custom 0) ⟨1⟩ "" "" "" "" "/metrics" []).2.2.2.2.1 (by decide)).2.2.2
      (by decide) (by decide) (by decide)⟩

/-! ## The root redirect -/

/-- On the sample environment "/" resolves to the redirect after a run on a
router of its own; and when the router is `http.DefaultServeMux` and the
metrics endpoint is "/" as well, the run panics in `http.Handle` and "/"
still resolves to the redirect. -/
theorem handlerAt_root_sample :
    handlerAt (RouterRef.custom 0) "/"
        (RegisterHandlers (sampleEnv none none none none) (RouterRef.custom 0) ⟨1⟩
          "" "" "" "" "/metrics" []).1 = some (Handler.redirectHandler "/containers/" 307) ∧
      returned (sampleEnv none none none none) RouterRef.defaultServeMux ⟨1⟩
          "" "" "" "" "/" [] = Result.panicked (Panic.multipleRegistrations "/") ∧
      handlerAt RouterRef.defaultServeMux "/"
        (RegisterHandlers (sampleEnv none none none none) RouterRef.defaultServeMux ⟨1⟩
          "" "" "" "" "/" []).1 = some (Handler.redirectHandler "/containers/" 307) := by
  decide

/-- C7. If a page-group registration `c` of the run returns an error `e`,
then `c` is the registration of the selected strategy, `RegisterHandlers`
returns the stage label of `c` followed by `e`, the failed call is the last
effect of the run (no collector is built or registered, no scrape handler is
exposed), the static-asset handler of the strategy was registered just
before it, and the routes of the health stage, the validation route, the
routes of the API stage, the root redirect and the static-asset route are in
the router afterwards. -/
theorem pages_failure_skips_metrics (env : Env) (mux : RouterRef) (m : Manager)
    (a ar d dr p : String) (t0 : Trace) (c : Callee) (e : String)
    (hc : c.isPages = true)
    (hP : (c, some e) ∈ callsOf (performed env mux m a ar d dr p t0)) :
    c = (selectStrategy a ar d dr).pagesCallee m ∧
      returned env mux m a ar d dr p t0 = Result.ret (some (stageLabel c ++ e)) ∧
      (performed env mux m a ar d dr p t0).filter Effect.isMetrics = [] ∧
      ∃ healthRoutes apiRoutes pagesRoutes,
        performed env mux m a ar d dr p t0 =
          [Effect.call Callee.healthzRegisterHandler mux healthRoutes none,
           Effect.handle mux env.ValidatePage (Handler.validateFunc m),
           Effect.call (Callee.apiRegisterHandlers m) mux apiRoutes none,
           Effect.handle mux "/" (Handler.redirectHandler env.ContainersPage 307)] ++
          (selectStrategy a ar d dr).logLine ++ (selectStrategy a ar d dr).construction ++
          [Effect.handle mux env.StaticResource (selectStrategy a ar d dr).staticHandler,
           Effect.call c mux pagesRoutes (some e)] ∧
        ∀ x ∈ healthRoutes ++ [(env.ValidatePage, Handler.validateFunc m)] ++ apiRoutes ++
            [("/", Handler.redirectHandler env.ContainersPage 307),
             (env.StaticResource, (selectStrategy a ar d dr).staticHandler)],
          x ∈ routes mux (RegisterHandlers env mux m a ar d dr p t0).1 := by
  obtain ⟨hs, hw⟩ := run_shape env mux m a ar d dr p t0
  rw [hw]
  generalize performed env mux m a ar d dr p t0 = P at hP hs ⊢
  generalize returned env mux m a ar d dr p t0 = R at hs ⊢
  generalize selectStrategy a ar d dr = S at hs ⊢
  cases hs
  case healthFailed =>
    simp [callsOf, Effect.asCall] at hP
    simp [hP.1, Callee.isPages] at hc
  case apiFailed =>
    simp [callsOf, Effect.asCall] at hP
    simp [hP.1, Callee.isPages] at hc
  case pagesFailed hr ar1 pr e1 =>
    rcases S with ⟨_, _⟩ | ⟨_, _⟩ | _
    all_goals
      simp [callsOf, preamble, Strategy.setup, Strategy.logLine,
        Strategy.construction, Strategy.pagesCallee, Effect.asCall] at hP
      obtain ⟨rfl, rfl⟩ := hP
      refine ⟨rfl, rfl, ?_, hr, ar1, pr, ?_, ?_⟩
      · simp [preamble, Strategy.setup, Strategy.logLine, Strategy.construction,
          Strategy.staticHandler, Strategy.pagesCallee, Effect.isMetrics]
      · simp [preamble, Strategy.setup, Strategy.logLine, Strategy.construction,
          Strategy.pagesCallee, StatusTemporaryRedirect]
      · intro x hx
        simp [routes_append, preamble, Strategy.setup, Strategy.logLine,
          Strategy.construction, routes, StatusTemporaryRedirect] at hx ⊢
        tauto
  all_goals
    rcases S with ⟨_, _⟩ | ⟨_, _⟩ | _ <;>
      simp [callsOf, beforeMetrics, preamble, metricsTail, Strategy.setup, Strategy.logLine,
        Strategy.construction, Strategy.pagesCallee, Effect.asCall] at hP

/-- Witness for C7: Basic strategy, the page-group registration fails. -/
theorem pages_failure_skips_metrics_witness :
    (Callee.pagesRegisterHandlersBasic ⟨1⟩
          (some ⟨"realm", SecretProvider.htpasswd "auth.htpasswd"⟩), some "boom") ∈
        callsOf (performed (sampleEnv none none (some "boom") none) (RouterRef.custom 0) ⟨1⟩
          "auth.htpasswd" "realm" "" "" "/metrics" []) ∧
      returned (sampleEnv none none (some "boom") none) (RouterRef.custom 0) ⟨1⟩
          "auth.htpasswd" "realm" "" "" "/metrics" [] =
        Result.ret (some ("failed to register pages auth handlers: " ++ "boom")) ∧
      (performed (sampleEnv none none (some "boom") none) (RouterRef.custom 0) ⟨1⟩
          "auth.htpasswd" "realm" "" "" "/metrics" []).filter Effect.isMetrics = [] :=
  ⟨by decide,
    (pages_failure_skips_metrics (sampleEnv none none (some "boom") none) (RouterRef.custom 0)
      ⟨1⟩ "auth.htpasswd" "realm" "" "" "/metrics" []
      (Callee.pagesRegisterHandlersBasic ⟨1⟩
        (some ⟨"realm", SecretProvider.htpasswd "auth.htpasswd"⟩)) "boom"
      (by decide) (by decide)).2.1,
    (pages_failure_skips_metrics (sampleEnv none none (some "boom") none) (RouterRef.custom 0)
      ⟨1⟩ "auth.htpasswd" "realm" "" "" "/metrics" []
      (Callee.pagesRegisterHandlersBasic ⟨1⟩
        (some ⟨"realm", SecretProvider.htpasswd "auth.htpasswd"⟩)) "boom"
      (by decide) (by decide)).2.2.1⟩

/-! ## The static-asset handlers -/

/-- C8. For every writer state, URL and username, `staticHandler` on an
authenticated request carrying the URL and `staticHandlerNoAuth` on a plain
request carrying it leave the same response.  Both run
`static.HandleRequest` on the writer and the URL; when it returns an error
the text of the error is written after whatever it wrote, and when it
returns nil nothing is added. -/
theorem staticHandler_eq_staticHandlerNoAuth (env : Env) (w : ResponseWriter) (u : URL)
    (username : String) :
    staticHandler env w ⟨⟨u⟩, username⟩ = staticHandlerNoAuth env w ⟨u⟩ ∧
      (staticHandlerNoAuth env w ⟨u⟩).body =
        (env.staticHandleRequest w u).1.body ++ (env.staticHandleRequest w u).2.getD "" ∧
      (∀ w1 e, env.staticHandleRequest w u = (w1, some e) →
        staticHandlerNoAuth env w ⟨u⟩ = w1.write e ∧
          (staticHandlerNoAuth env w ⟨u⟩).body = w1.body ++ e) ∧
      (∀ w1, env.staticHandleRequest w u = (w1, none) →
        staticHandlerNoAuth env w ⟨u⟩ = w1) := by
  refine ⟨rfl, ?_, ?_, ?_⟩
  · rcases h : env.staticHandleRequest w u with ⟨w1, _ | e⟩ <;>
      simp [staticHandlerNoAuth, h, Fprintf, ResponseWriter.write]
  · intro w1 e h
    simp [staticHandlerNoAuth, h, Fprintf, ResponseWriter.write]
  · intro w1 h
    simp [staticHandlerNoAuth, h]

/-- The two static-asset handlers on the sample environment: a failing
resource yields the error text as body, a served one yields what
`static.HandleRequest` wrote. -/
theorem staticHandler_sample :
    staticHandler (sampleEnv none none none none) ⟨none, ""⟩ ⟨⟨"/static/missing"⟩, "alice"⟩ =
        ⟨some 200, "unknown static resource"⟩ ∧
      staticHandlerNoAuth (sampleEnv none none none none) ⟨none, ""⟩ ⟨"/static/missing"⟩ =
        ⟨some 200, "unknown static resource"⟩ ∧
      staticHandler (sampleEnv none none none none) ⟨none, ""⟩ ⟨⟨"/static/a.js"⟩, "alice"⟩ =
        ⟨some 200, "/static/a.js"⟩ := by
  decide

/-! ## The validation stage -/

/-- C9. The result and the effects of `RegisterHandlers` do not depend on
what `validate.HandleRequest` does; after a successful health stage the
validation route is registered and the run goes on to the API stage; and the
registered closure, when `validate.HandleRequest` returns an error, writes
the text of the error after whatever was written and otherwise adds nothing. -/
theorem validation_is_soft_failure (env : Env) (mux : RouterRef) (m : Manager)
    (a ar d dr p : String) (t0 : Trace) :
    (∀ f, RegisterHandlers { env with validateHandleRequest := f } mux m a ar d dr p t0 =
        RegisterHandlers env mux m a ar d dr p t0) ∧
      ((Callee.healthzRegisterHandler, none) ∈ callsOf (performed env mux m a ar d dr p t0) →
        Effect.handle mux env.ValidatePage (Handler.validateFunc m) ∈
            performed env mux m a ar d dr p t0 ∧
          ∃ r, (Callee.apiRegisterHandlers m, r) ∈
            callsOf (performed env mux m a ar d dr p t0)) ∧
      (∀ w r, (validateFunc env m w r).body =
        (env.validateHandleRequest w m).1.body ++ (env.validateHandleRequest w m).2.getD "") ∧
      (∀ w r w1 e, env.validateHandleRequest w m = (w1, some e) →
        validateFunc env m w r = w1.write e ∧
          (validateFunc env m w r).body = w1.body ++ e) ∧
      (∀ w r w1, env.validateHandleRequest w m = (w1, none) →
        validateFunc env m w r = w1) := by
  refine ⟨fun f => rfl, ?_, ?_, ?_, ?_⟩
  · intro hH
    obtain ⟨hs, -⟩ := run_shape env mux m a ar d dr p t0
    generalize performed env mux m a ar d dr p t0 = P at hH hs ⊢
    generalize returned env mux m a ar d dr p t0 = R at hs
    generalize selectStrategy a ar d dr = S at hs
    cases hs
    case healthFailed => simp [callsOf, Effect.asCall] at hH
    all_goals simp [callsOf, beforeMetrics, preamble, Effect.asCall]
  · intro w r
    rcases h : env.validateHandleRequest w m with ⟨w1, _ | e⟩ <;>
      simp [validateFunc, h, Fprintf, ResponseWriter.write]
  · intro w r w1 e h
    simp [validateFunc, h, Fprintf, ResponseWriter.write]
  · intro w r w1 h
    simp [validateFunc, h]

/-! ## The losing credential source -/

/-- A run with a Basic credential file does not read the Digest arguments. -/
theorem RegisterHandlers_basic_ignores_digest (env : Env) (mux : RouterRef) (m : Manager)
    (a ar d dr p : String) (t0 : Trace) (ha : a ≠ "") :
    RegisterHandlers env mux m a ar d dr p t0 = RegisterHandlers env mux m a ar "" "" p t0 := by
  simp [RegisterHandlers, digestBlock, ha]

/-- A run without credential files does not read the realms. -/
theorem RegisterHandlers_noAuth_ignores_realms (env : Env) (mux : RouterRef) (m : Manager)
    (ar dr p : String) (t0 : Trace) :
    RegisterHandlers env mux m "" ar "" dr p t0 = RegisterHandlers env mux m "" "" "" "" p t0 := by
  simp [RegisterHandlers, basicBlock, digestBlock]

/-- C10. With a non-empty `httpAuthFile`, two runs that differ only in
`httpDigestFile` and `httpDigestRealm` yield the same world and the same
result, and no Digest provider or authenticator is constructed; with both
files empty, two runs that differ only in the two realms yield the same
world and the same result. -/
theorem losing_credential_source_noninterference (env : Env) (mux : RouterRef) (m : Manager)
    (a ar d dr p : String) (t0 : Trace) (ha : a ≠ "") :
    (∀ d1 dr1, RegisterHandlers env mux m a ar d1 dr1 p t0 =
        RegisterHandlers env mux m a ar d dr p t0) ∧
      (performed env mux m a ar d dr p t0).filter Effect.isDigestConstruction = [] ∧
      (∀ ar1 dr1 ar2 dr2, RegisterHandlers env mux m "" ar1 "" dr1 p t0 =
        RegisterHandlers env mux m "" ar2 "" dr2 p t0) := by
  refine ⟨?_, ?_, ?_⟩
  · intro d1 dr1
    rw [RegisterHandlers_basic_ignores_digest env mux m a ar d1 dr1 p t0 ha,
      RegisterHandlers_basic_ignores_digest env mux m a ar d dr p t0 ha]
  · obtain ⟨hs, -⟩ := run_shape env mux m a ar d dr p t0
    have hS : selectStrategy a ar d dr = Strategy.basic ar a := by simp [selectStrategy, ha]
    rw [hS] at hs
    generalize performed env mux m a ar d dr p t0 = P at hs ⊢
    generalize returned env mux m a ar d dr p t0 = R at hs
    cases hs <;>
      simp [beforeMetrics, preamble, metricsTail, Strategy.setup, Strategy.logLine,
        Strategy.construction, Strategy.staticHandler, Effect.isDigestConstruction]
  · intro ar1 dr1 ar2 dr2
    rw [RegisterHandlers_noAuth_ignores_realms env mux m ar1 dr1 p t0,
      RegisterHandlers_noAuth_ignores_realms env mux m ar2 dr2 p t0]

/-- Witness for C10: a Basic file is set and the Digest arguments vary. -/
theorem losing_credential_source_noninterference_witness :
    "auth.htpasswd" ≠ "" ∧
      RegisterHandlers (sampleEnv none none none none) (RouterRef.custom 0) ⟨1⟩
          "auth.htpasswd" "realm" "other.htdigest" "other" "/metrics" [] =
        RegisterHandlers (sampleEnv none none none none) (RouterRef.custom 0) ⟨1⟩
          "auth.htpasswd" "realm" "auth.htdigest" "drealm" "/metrics" [] :=
  ⟨by decide,
    (losing_credential_source_noninterference (sampleEnv none none none none)
      (RouterRef.custom 0) ⟨1⟩ "auth.htpasswd" "realm" "auth.htdigest" "drealm" "/metrics" []
      (by decide)).1 "other.htdigest" "other"⟩

end Cadvisor.Http
